import Mathlib

/-!
Verification of the confidence arithmetic and collaboration control flow of the
VLM-Agent-Scaling multi-agent pipeline.

Shallow embedding conventions:
* Python floats are modelled by `ℚ` (all confidence constants are decimal literals).
* A Python function that can raise an exception is modelled as returning `Option`:
  `none` stands for a raised exception (ZeroDivisionError, TypeError,
  AttributeError, ValueError, or a propagated agent failure).
* The agent registry (`CollaborationManager._agents`, a dict) is modelled as a
  lookup function `String → Option Agent`, matching `dict.get`.
* The external model call (InternVL / OpenAI) is an oracle: process functions
  take the inference text as an extra argument.
-/

/-- `AgentOutput` from src/agents/base/base_agent.py (metadata omitted:
no claim depends on it). -/
structure AgentOutput where
  result : String
  confidence : ℚ
  deriving Repr, DecidableEq

/-- `AgentInput` from src/agents/base/base_agent.py.  `image_path`, `question`
and `previous_responses` default to `None` in the dataclass, so each is an
`Option`; Python truthiness of the string / list fields is modelled below. -/
structure AgentInput where
  image_path : Option String := none
  question : Option String := none
  previous_responses : Option (List AgentOutput) := none
  deriving Repr, DecidableEq

/-- Python truthiness of an optional string: `None` and `""` are falsy. -/
def strTruthy : Option String → Bool
  | none => false
  | some s => s ≠ ""

/-- Python truthiness of an optional list: `None` and `[]` are falsy. -/
def listTruthy : Option (List AgentOutput) → Bool
  | none => false
  | some l => l ≠ []

/-! ## Tier-1 confidence policy (src/agents/level1) -/

/-- `OCRAgent.clean_ocr_text` (src/agents/level1/ocr_agent.py line 34):
`text.strip()`. -/
def clean_ocr_text (text : String) : String := text.trim

/-- OCR confidence (src/agents/level1/ocr_agent.py line 143):
`0.9 if extracted_text and extracted_text != "NO_TEXT_FOUND" else 0.1`. -/
def ocrConfidence (extracted_text : String) : ℚ :=
  if extracted_text ≠ "" ∧ extracted_text ≠ "NO_TEXT_FOUND" then 9/10 else 1/10

/-- The OCR agent's output given the raw inference text: the result is the
cleaned text and the confidence is computed from it
(src/agents/level1/ocr_agent.py lines 139-149). -/
def ocrOutput (raw_extracted_text : String) : AgentOutput :=
  let extracted_text := clean_ocr_text raw_extracted_text
  { result := extracted_text, confidence := ocrConfidence extracted_text }

/-- Common-agent confidence (src/agents/level1/common_agent.py line 128):
`0.9 if analysis_result and analysis_result != "NO_CONTENT_FOUND" else 0.1`. -/
def commonConfidence (analysis_result : String) : ℚ :=
  if analysis_result ≠ "" ∧ analysis_result ≠ "NO_CONTENT_FOUND" then 9/10 else 1/10

/-- The common agent's output given the raw message content; the code first
applies `.strip()` (src/agents/level1/common_agent.py lines 124-133). -/
def commonOutput (raw_content : String) : AgentOutput :=
  let analysis_result := raw_content.trim
  { result := analysis_result, confidence := commonConfidence analysis_result }

/-- Relation-agent confidence (src/agents/level1/relation_agent.py line 128):
`0.9 if analysis_result and analysis_result != "NO_RELATIONSHIPS_FOUND" else 0.1`. -/
def relationConfidence (analysis_result : String) : ℚ :=
  if analysis_result ≠ "" ∧ analysis_result ≠ "NO_RELATIONSHIPS_FOUND" then 9/10 else 1/10

/-- The relation agent's output given the raw message content; the code first
applies `.strip()` (src/agents/level1/relation_agent.py lines 124-131). -/
def relationOutput (raw_content : String) : AgentOutput :=
  let analysis_result := raw_content.trim
  { result := analysis_result, confidence := relationConfidence analysis_result }

/-! ## Tier-2 / Tier-3 aggregation arithmetic -/

/-- `max(l)` on a non-empty Python list; the empty case never occurs where this
is used (guarded by validation / by the zero-sum check). -/
def listMax : List ℚ → ℚ
  | [] => 0
  | x :: xs => xs.foldl max x

/-- `min(l)` on a non-empty Python list. -/
def listMin : List ℚ → ℚ
  | [] => 0
  | x :: xs => xs.foldl min x

/-- Refiner-1 aggregation (src/agents/level2/refiner1_agent.py lines 65-67):
`base = sum(confidences)/len(confidences); confidence = min(0.95, base * 1.1)`.
`none` models the ZeroDivisionError on an empty list. -/
def refiner1Confidence (confidences : List ℚ) : Option ℚ :=
  if confidences.length = 0 then none
  else
    let base_confidence := confidences.sum / (confidences.length : ℚ)
    some (min (95/100) (base_confidence * (11/10)))

/-- Refiner-2 aggregation (src/agents/level2/refiner2_agent.py lines 72-81):
mean base, then `min(0.95, base*1.1)` if `max-min < 0.2`, else `base*0.9`. -/
def refiner2Confidence (confidences : List ℚ) : Option ℚ :=
  if confidences.length = 0 then none
  else
    let base_confidence := confidences.sum / (confidences.length : ℚ)
    let confidence_variance := listMax confidences - listMin confidences
    if confidence_variance < 2/10 then some (min (95/100) (base_confidence * (11/10)))
    else some (base_confidence * (9/10))

/-- Refiner-3 aggregation (src/agents/level2/refiner3_agent.py lines 73-81):
mean base, then `min(0.95, base*1.1)` if `min(confidences) > 0.7`,
else `base*0.9`. -/
def refiner3Confidence (confidences : List ℚ) : Option ℚ :=
  if confidences.length = 0 then none
  else
    let base_confidence := confidences.sum / (confidences.length : ℚ)
    let min_confidence := listMin confidences
    if min_confidence > 7/10 then some (min (95/100) (base_confidence * (11/10)))
    else some (base_confidence * (9/10))

/-- Retriever aggregation (src/agents/level3/retriever_agent.py lines 69-78):
`weighted = sum(w*c for w,c in zip(weights,weights)) / sum(weights)`;
`variance = max(weights) - min(weights)`;
`min(0.98, weighted*1.1)` if `variance < 0.1`, else `weighted*0.95`.
`none` models the ZeroDivisionError when `sum(weights) == 0` (which also
covers the empty list, whose sum is 0). -/
def retrieverConfidence (weights : List ℚ) : Option ℚ :=
  if weights.sum = 0 then none
  else
    let weighted_confidence := (weights.map (fun w => w * w)).sum / weights.sum
    let confidence_variance := listMax weights - listMin weights
    if confidence_variance < 1/10 then some (min (98/100) (weighted_confidence * (11/10)))
    else some (weighted_confidence * (95/100))

/-! ## Spec-side formulas (written from the spec wording, for refinement
comparison against the code-side definitions above) -/

/-- Modelled from the spec: `base = mean(upstream confidences)`. -/
def specMean (upstream : List ℚ) : ℚ := upstream.sum / (upstream.length : ℚ)

/-- Modelled from the spec: Refiner type 1 (accuracy-refiner):
`result_confidence = min(0.95, base * 1.1)`. -/
def specRefiner1 (upstream : List ℚ) : ℚ :=
  min (95/100) (specMean upstream * (11/10))

/-- Modelled from the spec: Refiner type 2 (synthesizer):
`variance = max(upstream) - min(upstream)`; if `variance < 0.2` then
`min(0.95, base*1.1)` else `base*0.9`. -/
def specRefiner2 (upstream : List ℚ) : ℚ :=
  if listMax upstream - listMin upstream < 2/10 then
    min (95/100) (specMean upstream * (11/10))
  else specMean upstream * (9/10)

/-- Modelled from the spec: Retriever (final synthesis):
`weighted = sum(w_i * w_i) / sum(w_i)`; `variance = max(w_i) - min(w_i)`;
if `variance < 0.1` then `min(0.98, weighted*1.1)` else `weighted*0.95`. -/
def specRetriever (w : List ℚ) : ℚ :=
  let weighted := (w.map (fun x => x * x)).sum / w.sum
  if listMax w - listMin w < 1/10 then min (98/100) (weighted * (11/10))
  else weighted * (95/100)

/-! ## Input validation (validate_input methods) -/

/-- `Refiner1Agent.validate_input` (src/agents/level2/refiner1_agent.py
lines 83-85): `bool(previous_responses and len(previous_responses) > 0 and
question and image_path)`. -/
def refiner1ValidateInput (input_data : AgentInput) : Bool :=
  listTruthy input_data.previous_responses &&
  decide (0 < (input_data.previous_responses.getD []).length) &&
  strTruthy input_data.question &&
  strTruthy input_data.image_path

/-- `Refiner2Agent.validate_input` (src/agents/level2/refiner2_agent.py
lines 99-101): `bool(previous_responses and len(previous_responses) > 0 and
question)` — no image-path requirement. -/
def refiner2ValidateInput (input_data : AgentInput) : Bool :=
  listTruthy input_data.previous_responses &&
  decide (0 < (input_data.previous_responses.getD []).length) &&
  strTruthy input_data.question

/-- `Refiner3Agent.validate_input` (src/agents/level2/refiner3_agent.py
lines 99-101): same condition as refiner 2. -/
def refiner3ValidateInput (input_data : AgentInput) : Bool :=
  listTruthy input_data.previous_responses &&
  decide (0 < (input_data.previous_responses.getD []).length) &&
  strTruthy input_data.question

/-- `RetrieverAgent.validate_input` (src/agents/level3/retriever_agent.py
lines 100-106): previous_responses truthy, non-zero length, all entries
`AgentOutput` instances (always true in the typed embedding), and a truthy
question. -/
def retrieverValidateInput (input_data : AgentInput) : Bool :=
  listTruthy input_data.previous_responses &&
  decide (0 < (input_data.previous_responses.getD []).length) &&
  strTruthy input_data.question

/-! ## Process wrappers for the aggregation tiers

The model call result is the oracle argument; `none` models the ValueError
raised on invalid input or any exception escaping the try block. -/

/-- `Refiner1Agent.process` (src/agents/level2/refiner1_agent.py): validate,
then return the refined text with `min(0.95, mean(upstream)*1.1)`. -/
def refiner1Process (refined_result : String) (input_data : AgentInput) :
    Option AgentOutput :=
  if refiner1ValidateInput input_data then
    let confidences := (input_data.previous_responses.getD []).map (·.confidence)
    (refiner1Confidence confidences).map (fun c => { result := refined_result, confidence := c })
  else none

/-- `Refiner2Agent.process` (src/agents/level2/refiner2_agent.py): validate,
then return the synthesized text with the variance-adjusted confidence. -/
def refiner2Process (synthesized_result : String) (input_data : AgentInput) :
    Option AgentOutput :=
  if refiner2ValidateInput input_data then
    let confidences := (input_data.previous_responses.getD []).map (·.confidence)
    (refiner2Confidence confidences).map (fun c => { result := synthesized_result, confidence := c })
  else none

/-- `RetrieverAgent.process` (src/agents/level3/retriever_agent.py): validate,
then return the final answer with the weighted self-average confidence. -/
def retrieverProcess (final_answer : String) (input_data : AgentInput) :
    Option AgentOutput :=
  if retrieverValidateInput input_data then
    let weights := (input_data.previous_responses.getD []).map (·.confidence)
    (retrieverConfidence weights).map (fun c => { result := final_answer, confidence := c })
  else none

/-! ## CollaborationManager (src/agents/base/collaboration_manager.py) -/

/-- An agent as seen by the collaboration manager: its `process` method.
`none` models a raised exception. -/
structure Agent where
  process : AgentInput → Option AgentOutput

/-- The registry `CollaborationManager._agents`; lookup is `dict.get`. -/
def AgentRegistry : Type := String → Option Agent

/-- `self.confidence_threshold`, set to 0.7 in `__init__` and never changed. -/
def confidence_threshold : ℚ := 7/10

/-- The verification input built in the `requesting_agent == "ocr"` branch of
`request_collaboration` (lines 35-39). -/
def verificationInput (input_data : AgentInput) (current_result : AgentOutput) :
    AgentInput :=
  { image_path := input_data.image_path
    question := some "Can you verify if there is any text in this image? If yes, what is it?"
    previous_responses := some [current_result] }

/-- The detailed-OCR input built in the `requesting_agent == "common"` branch
(lines 51-55), given the (non-None) question text. -/
def detailedInput (input_data : AgentInput) (current_result : AgentOutput)
    (q : String) : AgentInput :=
  { image_path := input_data.image_path
    question := some ("Please perform a detailed OCR analysis, focusing on any text that might help answer: " ++ q)
    previous_responses := some [current_result] }

/-- `CollaborationManager.request_collaboration` (lines 22-68).
`none` models an uncaught exception: a failure propagated from a callee,
the TypeError of concatenating a `None` question in the "common" branch, or
the AttributeError of calling `.process` on a `None` registry lookup at
line 66. -/
def requestCollaboration (agents : AgentRegistry) (requesting_agent : String)
    (input_data : AgentInput) (current_result : AgentOutput) :
    Option AgentOutput :=
  if current_result.confidence ≥ confidence_threshold then some current_result
  else if requesting_agent = "ocr" then
    match agents "common" with
    | some common_agent =>
      match common_agent.process (verificationInput input_data current_result) with
      | none => none
      | some verification_result =>
        if verification_result.confidence > current_result.confidence then
          some verification_result
        else some current_result
    | none => some current_result
  else if requesting_agent = "common" then
    match agents "ocr" with
    | some ocr_agent =>
      match input_data.question with
      | none => none
      | some q =>
        match ocr_agent.process (detailedInput input_data current_result q) with
        | none => none
        | some ocr_result =>
          if ocr_result.confidence > 1/2 then
            match agents "common" with
            | none => none
            | some common_agent =>
              common_agent.process
                { image_path := input_data.image_path
                  question := input_data.question
                  previous_responses := some [ocr_result, current_result] }
          else some current_result
    | none => some current_result
  else some current_result

/-- The validator name chosen by `cross_validate` (line 79). -/
def validatorName (primary_agent : String) : String :=
  if primary_agent = "ocr" then "common" else "ocr"

/-- The validation input built by `cross_validate` (lines 86-90). -/
def validationInput (input_data : AgentInput) (primary_result : AgentOutput) :
    AgentInput :=
  { image_path := input_data.image_path
    question := input_data.question
    previous_responses := some [primary_result] }

/-- `CollaborationManager.cross_validate` (lines 70-98). -/
def crossValidate (agents : AgentRegistry) (primary_result : AgentOutput)
    (input_data : AgentInput) (primary_agent : String) : Option AgentOutput :=
  if primary_result.confidence ≥ confidence_threshold then some primary_result
  else
    match agents (validatorName primary_agent) with
    | none => some primary_result
    | some validator =>
      match validator.process (validationInput input_data primary_result) with
      | none => none
      | some validation_result =>
        if validation_result.confidence > primary_result.confidence then
          some validation_result
        else some primary_result

/-! ## Arithmetic helper lemmas -/

lemma list_sum_nonneg {l : List ℚ} (h : ∀ x ∈ l, 0 ≤ x) : 0 ≤ l.sum := by
  induction l with
  | nil => simp
  | cons a t ih =>
    simp only [List.sum_cons]
    have ha := h a (List.mem_cons_self a t)
    have ht := ih (fun x hx => h x (List.mem_cons_of_mem a hx))
    linarith

lemma list_sum_le_length {l : List ℚ} (h : ∀ x ∈ l, x ≤ 1) :
    l.sum ≤ (l.length : ℚ) := by
  induction l with
  | nil => simp
  | cons a t ih =>
    simp only [List.sum_cons, List.length_cons, Nat.cast_add, Nat.cast_one]
    have ha := h a (List.mem_cons_self a t)
    have ht := ih (fun x hx => h x (List.mem_cons_of_mem a hx))
    linarith

lemma list_sum_sq_le_sum {l : List ℚ} (h : ∀ x ∈ l, 0 ≤ x ∧ x ≤ 1) :
    (l.map (fun x => x * x)).sum ≤ l.sum := by
  induction l with
  | nil => simp
  | cons a t ih =>
    simp only [List.map_cons, List.sum_cons]
    have ha := h a (List.mem_cons_self a t)
    have ht := ih (fun x hx => h x (List.mem_cons_of_mem a hx))
    nlinarith [ha.1, ha.2]

lemma list_sum_sq_nonneg (l : List ℚ) : 0 ≤ (l.map (fun x => x * x)).sum := by
  induction l with
  | nil => simp
  | cons a t ih =>
    simp only [List.map_cons, List.sum_cons]
    nlinarith [mul_self_nonneg a]

lemma mean_bounds {l : List ℚ} (hne : l ≠ []) (h : ∀ x ∈ l, 0 ≤ x ∧ x ≤ 1) :
    0 ≤ l.sum / (l.length : ℚ) ∧ l.sum / (l.length : ℚ) ≤ 1 := by
  have hlenpos : (0 : ℚ) < l.length := by
    exact_mod_cast List.length_pos.mpr hne
  constructor
  · exact div_nonneg (list_sum_nonneg (fun x hx => (h x hx).1)) (le_of_lt hlenpos)
  · exact (div_le_one hlenpos).mpr (list_sum_le_length (fun x hx => (h x hx).2))

lemma boost_branch_bounds {b : ℚ} (hb0 : 0 ≤ b) :
    0 ≤ min (95/100 : ℚ) (b * (11/10)) ∧ min (95/100 : ℚ) (b * (11/10)) ≤ 1 :=
  ⟨le_min (by norm_num) (by positivity), le_trans (min_le_left _ _) (by norm_num)⟩

lemma damp_branch_bounds {b : ℚ} (hb0 : 0 ≤ b) (hb1 : b ≤ 1) :
    0 ≤ b * (9/10 : ℚ) ∧ b * (9/10 : ℚ) ≤ 1 := by
  constructor
  · positivity
  · nlinarith

/-! ## C1 -/

/-- C1 counterexample: the all-zero vector lies in [0,1]^3, yet the
retriever's weighted self-average divides by `sum(weights) = 0` and the
computation fails (raises ZeroDivisionError, modelled as `none`) instead of
returning a clamped confidence. -/
theorem C1_counterexample :
    (∀ x ∈ ([0, 0, 0] : List ℚ), 0 ≤ x ∧ x ≤ 1) ∧
    retrieverConfidence [0, 0, 0] = none := by
  constructor
  · intro x hx
    simp only [List.mem_cons, List.not_mem_nil, or_false] at hx
    rcases hx with h | h | h <;> simp [h]
  · unfold retrieverConfidence
    norm_num

/-- C1 (amended): for every non-empty upstream confidence vector with entries
in [0,1], each of the three refiner aggregations is defined and returns a
confidence in [0,1]; the retriever's aggregation is defined and returns a
confidence in [0,1] whenever the upstream confidences do not sum to zero
(at an all-zero vector it raises a division error). -/
theorem C1_aggregations_bounded (w : List ℚ) (hne : w ≠ [])
    (hmem : ∀ x ∈ w, 0 ≤ x ∧ x ≤ 1) :
    (∃ c, refiner1Confidence w = some c ∧ 0 ≤ c ∧ c ≤ 1) ∧
    (∃ c, refiner2Confidence w = some c ∧ 0 ≤ c ∧ c ≤ 1) ∧
    (∃ c, refiner3Confidence w = some c ∧ 0 ≤ c ∧ c ≤ 1) ∧
    (w.sum ≠ 0 → ∃ c, retrieverConfidence w = some c ∧ 0 ≤ c ∧ c ≤ 1) := by
  have hlen0 : w.length ≠ 0 := fun h => hne (List.length_eq_zero.mp h)
  obtain ⟨hb0, hb1⟩ := mean_bounds hne hmem
  refine ⟨?_, ?_, ?_, ?_⟩
  · refine ⟨min (95/100) (w.sum / (w.length : ℚ) * (11/10)), ?_, boost_branch_bounds hb0⟩
    unfold refiner1Confidence
    rw [if_neg hlen0]
  · unfold refiner2Confidence
    rw [if_neg hlen0]
    dsimp only
    split
    · exact ⟨_, rfl, boost_branch_bounds hb0⟩
    · exact ⟨_, rfl, damp_branch_bounds hb0 hb1⟩
  · unfold refiner3Confidence
    rw [if_neg hlen0]
    dsimp only
    split
    · exact ⟨_, rfl, boost_branch_bounds hb0⟩
    · exact ⟨_, rfl, damp_branch_bounds hb0 hb1⟩
  · intro hsum
    have hsumpos : 0 < w.sum :=
      lt_of_le_of_ne (list_sum_nonneg (fun x hx => (hmem x hx).1)) (Ne.symm hsum)
    have hw0 : 0 ≤ (w.map (fun x => x * x)).sum / w.sum :=
      div_nonneg (list_sum_sq_nonneg w) (le_of_lt hsumpos)
    have hw1 : (w.map (fun x => x * x)).sum / w.sum ≤ 1 :=
      (div_le_one hsumpos).mpr (list_sum_sq_le_sum hmem)
    unfold retrieverConfidence
    rw [if_neg hsum]
    dsimp only
    split
    · refine ⟨_, rfl, le_min (by norm_num) (by positivity), ?_⟩
      exact le_trans (min_le_left _ _) (by norm_num)
    · refine ⟨_, rfl, by positivity, by nlinarith⟩

/-- Witness for C1_aggregations_bounded at the vector [0.9, 0.1, 0.5]. -/
theorem C1_aggregations_bounded_witness :
    ([(9:ℚ)/10, 1/10, 1/2] ≠ []) ∧
    (∀ x ∈ ([(9:ℚ)/10, 1/10, 1/2] : List ℚ), 0 ≤ x ∧ x ≤ 1) ∧
    (([(9:ℚ)/10, 1/10, 1/2] : List ℚ).sum ≠ 0) ∧
    (∃ c, retrieverConfidence [(9:ℚ)/10, 1/10, 1/2] = some c ∧ 0 ≤ c ∧ c ≤ 1) := by
  refine ⟨by simp, ?_, by norm_num, ?_⟩
  · intro x hx
    simp only [List.mem_cons, List.not_mem_nil, or_false] at hx
    rcases hx with h | h | h <;> rw [h] <;> norm_num
  · exact (C1_aggregations_bounded [(9:ℚ)/10, 1/10, 1/2] (by simp)
      (by intro x hx
          simp only [List.mem_cons, List.not_mem_nil, or_false] at hx
          rcases hx with h | h | h <;> rw [h] <;> norm_num)).2.2.2 (by norm_num)

/-! ## C2 -/

/-- C2 counterexample: the relation agent's sentinel in the code is
"NO_RELATIONSHIPS_FOUND", not "NO_RELATIONS_FOUND".  A result equal to the
claimed sentinel "NO_RELATIONS_FOUND" is non-empty and differs from the
code's sentinel, so the relation agent assigns it confidence 0.9, where the
claim demands 0.1. -/
theorem C2_counterexample :
    relationConfidence "NO_RELATIONS_FOUND" = 9/10 ∧ (9/10 : ℚ) ≠ 1/10 := by
  constructor
  · unfold relationConfidence
    rw [if_pos ⟨by decide, by decide⟩]
  · norm_num

/-- C2 (amended): each Tier-1 agent assigns confidence 0.9 to a non-empty
result differing from its sentinel and 0.1 to its sentinel, where the
sentinels are "NO_TEXT_FOUND" (OCR), "NO_CONTENT_FOUND" (common) and
"NO_RELATIONSHIPS_FOUND" (relation). -/
theorem C2_binary_confidence_policy (t : String) (ht : t ≠ "") :
    (t ≠ "NO_TEXT_FOUND" → ocrConfidence t = 9/10) ∧
    (t ≠ "NO_CONTENT_FOUND" → commonConfidence t = 9/10) ∧
    (t ≠ "NO_RELATIONSHIPS_FOUND" → relationConfidence t = 9/10) ∧
    ocrConfidence "NO_TEXT_FOUND" = 1/10 ∧
    commonConfidence "NO_CONTENT_FOUND" = 1/10 ∧
    relationConfidence "NO_RELATIONSHIPS_FOUND" = 1/10 := by
  refine ⟨fun h => ?_, fun h => ?_, fun h => ?_, ?_, ?_, ?_⟩
  · unfold ocrConfidence
    rw [if_pos ⟨ht, h⟩]
  · unfold commonConfidence
    rw [if_pos ⟨ht, h⟩]
  · unfold relationConfidence
    rw [if_pos ⟨ht, h⟩]
  · unfold ocrConfidence
    rw [if_neg (by simp)]
  · unfold commonConfidence
    rw [if_neg (by simp)]
  · unfold relationConfidence
    rw [if_neg (by simp)]

/-- Witness for C2_binary_confidence_policy at the concrete text "hello". -/
theorem C2_binary_confidence_policy_witness :
    ("hello" ≠ "") ∧ ocrConfidence "hello" = 9/10 := by
  refine ⟨by decide, (C2_binary_confidence_policy "hello" (by decide)).1 (by decide)⟩

/-! ## C3 -/

/-- C3: for every non-empty upstream confidence vector with non-zero sum, the
retriever's final confidence matches the spec formula: the confidence-weighted
self-average `sum(w_i*w_i)/sum(w_i)`, boosted to `min(0.98, weighted*1.1)`
when `max - min < 0.1` and damped to `weighted*0.95` otherwise. -/
theorem C3_retriever_formula (w : List ℚ) (_hne : w ≠ []) (hsum : w.sum ≠ 0) :
    retrieverConfidence w = some (specRetriever w) := by
  unfold retrieverConfidence specRetriever
  rw [if_neg hsum]
  dsimp only
  split <;> rfl

/-- Witness for C3_retriever_formula at the vector [0.8, 0.9, 0.85]. -/
theorem C3_retriever_formula_witness :
    ([(8:ℚ)/10, 9/10, 85/100] ≠ []) ∧
    (([(8:ℚ)/10, 9/10, 85/100] : List ℚ).sum ≠ 0) ∧
    retrieverConfidence [(8:ℚ)/10, 9/10, 85/100] =
      some (specRetriever [(8:ℚ)/10, 9/10, 85/100]) :=
  ⟨by simp, by norm_num,
   C3_retriever_formula [(8:ℚ)/10, 9/10, 85/100] (by simp) (by norm_num)⟩

/-! ## C4 -/

/-- C4: for every non-empty upstream confidence vector, refiner type 2
matches the spec formula: mean base, boosted to `min(0.95, base*1.1)` when
`max - min < 0.2` and damped to `base*0.9` otherwise. -/
theorem C4_refiner2_formula (up : List ℚ) (hne : up ≠ []) :
    refiner2Confidence up = some (specRefiner2 up) := by
  unfold refiner2Confidence specRefiner2 specMean
  rw [if_neg (fun h => hne (List.length_eq_zero.mp h))]
  dsimp only
  split <;> rfl

/-- Witness for C4_refiner2_formula at the vector [0.9, 0.1]. -/
theorem C4_refiner2_formula_witness :
    ([(9:ℚ)/10, 1/10] ≠ []) ∧
    refiner2Confidence [(9:ℚ)/10, 1/10] = some (specRefiner2 [(9:ℚ)/10, 1/10]) :=
  ⟨by simp, C4_refiner2_formula [(9:ℚ)/10, 1/10] (by simp)⟩

/-! ## C5 -/

/-- C5: for every non-empty upstream confidence vector, refiner type 1
returns `min(0.95, mean * 1.1)`; on [0.8, 0.6, 0.9] the exact base is 23/30
(0.7667 to four decimal places) and the exact result is 253/300 (0.8433 to
four decimal places), which is below the 0.95 cap. -/
theorem C5_refiner1_formula :
    (∀ up : List ℚ, up ≠ [] → refiner1Confidence up = some (specRefiner1 up)) ∧
    refiner1Confidence [8/10, 6/10, 9/10] = some (253/300) ∧
    specMean [8/10, 6/10, 9/10] = 23/30 ∧
    |specMean [8/10, 6/10, 9/10] - 7667/10000| < 1/10000 ∧
    |(253 : ℚ)/300 - 8433/10000| < 1/10000 ∧
    (253 : ℚ)/300 = min (95/100) ((23/30) * (11/10)) := by
  refine ⟨fun up hne => ?_, ?_, ?_, ?_, ?_, ?_⟩
  · unfold refiner1Confidence specRefiner1 specMean
    rw [if_neg (fun h => hne (List.length_eq_zero.mp h))]
  · unfold refiner1Confidence
    norm_num
  · unfold specMean
    norm_num
  · unfold specMean
    rw [abs_lt]
    constructor <;> norm_num
  · rw [abs_lt]
    constructor <;> norm_num
  · rw [min_eq_right (by norm_num)]
    norm_num

/-- Witness for C5_refiner1_formula at the singleton vector [0.5]. -/
theorem C5_refiner1_formula_witness :
    ([(1:ℚ)/2] ≠ []) ∧
    refiner1Confidence [(1:ℚ)/2] = some (specRefiner1 [(1:ℚ)/2]) :=
  ⟨by simp, C5_refiner1_formula.1 [(1:ℚ)/2] (by simp)⟩

/-! ## C6 -/

/-- C6: whenever the current result's confidence is at least the fixed
threshold 0.7, `request_collaboration` returns it unchanged, for every
registry, requesting-agent name and input — the no-op fast path. -/
theorem C6_noop_fast_path (agents : AgentRegistry) (requesting_agent : String)
    (input_data : AgentInput) (current_result : AgentOutput)
    (h : current_result.confidence ≥ 7/10) :
    requestCollaboration agents requesting_agent input_data current_result =
      some current_result := by
  unfold requestCollaboration confidence_threshold
  rw [if_pos h]

/-- Witness for C6_noop_fast_path: an empty registry, requester "ocr" and a
result of confidence 0.8. -/
theorem C6_noop_fast_path_witness :
    ((8:ℚ)/10 ≥ 7/10) ∧
    requestCollaboration (fun _ => none) "ocr" {} ⟨"r", 8/10⟩ = some ⟨"r", 8/10⟩ :=
  ⟨by norm_num,
   C6_noop_fast_path (fun _ => none) "ocr" {} ⟨"r", 8/10⟩ (by norm_num)⟩

/-! ## C7 -/

/-- C7: in the "ocr" branch below the threshold, with a registered common
agent whose verification call succeeds, the collaboration result is the
verification output exactly when its confidence strictly exceeds the current
confidence, and the unchanged current result otherwise. -/
theorem C7_never_make_it_worse (agents : AgentRegistry) (input_data : AgentInput)
    (current_result : AgentOutput) (common_agent : Agent)
    (verification_result : AgentOutput)
    (hconf : current_result.confidence < 7/10)
    (hreg : agents "common" = some common_agent)
    (hproc : common_agent.process (verificationInput input_data current_result) =
      some verification_result) :
    requestCollaboration agents "ocr" input_data current_result =
      (if verification_result.confidence > current_result.confidence
       then some verification_result else some current_result) := by
  unfold requestCollaboration confidence_threshold
  rw [if_neg (not_le.mpr hconf), if_pos rfl]
  simp only [hreg, hproc]

/-- Witness for C7_never_make_it_worse: verification confidence 0.5 does not
exceed the current 0.6, so the original result is kept. -/
theorem C7_never_make_it_worse_witness :
    ((6:ℚ)/10 < 7/10) ∧
    requestCollaboration
      (fun n => if n = "common" then some ⟨fun _ => some ⟨"v", 1/2⟩⟩ else none)
      "ocr" {} ⟨"c", 6/10⟩ = some ⟨"c", 6/10⟩ := by
  refine ⟨by norm_num, ?_⟩
  have h := C7_never_make_it_worse
    (fun n => if n = "common" then some ⟨fun _ => some ⟨"v", 1/2⟩⟩ else none)
    {} ⟨"c", 6/10⟩ ⟨fun _ => some ⟨"v", 1/2⟩⟩ ⟨"v", 1/2⟩
    (by norm_num) rfl rfl
  rw [h, if_neg (by norm_num)]

/-! ## C8 -/

/-- C8: `cross_validate` below the threshold degrades gracefully to the
primary result when no validator is registered, and otherwise returns the
validator's output exactly when its confidence strictly exceeds the
primary's, the primary result being returned unchanged otherwise. -/
theorem C8_cross_validate_behavior (agents : AgentRegistry)
    (primary_result : AgentOutput) (input_data : AgentInput)
    (primary_agent : String)
    (hconf : primary_result.confidence < 7/10) :
    (agents (validatorName primary_agent) = none →
      crossValidate agents primary_result input_data primary_agent =
        some primary_result) ∧
    (∀ validator validation_result,
      agents (validatorName primary_agent) = some validator →
      validator.process (validationInput input_data primary_result) =
        some validation_result →
      crossValidate agents primary_result input_data primary_agent =
        (if validation_result.confidence > primary_result.confidence
         then some validation_result else some primary_result)) := by
  constructor
  · intro hnone
    unfold crossValidate confidence_threshold
    rw [if_neg (not_le.mpr hconf), hnone]
  · intro validator validation_result hreg hproc
    unfold crossValidate confidence_threshold
    rw [if_neg (not_le.mpr hconf)]
    simp only [hreg, hproc]

/-- Witness for C8_cross_validate_behavior: an empty registry, so the primary
result of confidence 0.5 is returned unchanged. -/
theorem C8_cross_validate_behavior_witness :
    ((1:ℚ)/2 < 7/10) ∧
    crossValidate (fun _ => none) ⟨"p", 1/2⟩ {} "ocr" = some ⟨"p", 1/2⟩ :=
  ⟨by norm_num,
   (C8_cross_validate_behavior (fun _ => none) ⟨"p", 1/2⟩ {} "ocr"
     (by norm_num)).1 rfl⟩

/-! ## C9 -/

/-- C9: in the "common" branch below the threshold, when an OCR agent is
registered and its focused reanalysis succeeds with confidence above 0.5 but
no agent is registered under "common", the second registry lookup at line 66
of collaboration_manager.py yields None and `.process` is called on it: the
operation fails (AttributeError, modelled as `none`) instead of returning the
current result. -/
theorem C9_missing_common_crashes (agents : AgentRegistry)
    (input_data : AgentInput) (current_result : AgentOutput)
    (ocr_agent : Agent) (q : String) (ocr_result : AgentOutput)
    (hq : input_data.question = some q)
    (hconf : current_result.confidence < 7/10)
    (hocr : agents "ocr" = some ocr_agent)
    (hcommon : agents "common" = none)
    (hproc : ocr_agent.process (detailedInput input_data current_result q) =
      some ocr_result)
    (hres : ocr_result.confidence > 1/2) :
    requestCollaboration agents "common" input_data current_result = none := by
  unfold requestCollaboration confidence_threshold
  rw [if_neg (not_le.mpr hconf), if_neg (by decide), if_pos rfl]
  simp only [hocr, hq, hproc]
  rw [if_pos hres, hcommon]

/-- Witness for C9_missing_common_crashes: registry with only "ocr", whose
reanalysis has confidence 0.9; the current result has confidence 0.1. -/
theorem C9_missing_common_crashes_witness :
    ((1:ℚ)/10 < 7/10) ∧ ((9:ℚ)/10 > 1/2) ∧
    requestCollaboration
      (fun n => if n = "ocr" then some ⟨fun _ => some ⟨"t", 9/10⟩⟩ else none)
      "common" { question := some "Q" } ⟨"c", 1/10⟩ = none := by
  refine ⟨by norm_num, by norm_num, ?_⟩
  exact C9_missing_common_crashes
    (fun n => if n = "ocr" then some ⟨fun _ => some ⟨"t", 9/10⟩⟩ else none)
    { question := some "Q" } ⟨"c", 1/10⟩ ⟨fun _ => some ⟨"t", 9/10⟩⟩ "Q"
    ⟨"t", 9/10⟩ rfl (by norm_num) rfl rfl rfl (by norm_num)

/-! ## C10 -/

/-- C10: on an input with a non-empty previous_responses list and a non-empty
question but no truthy image reference, refiner 1's validate_input rejects
while refiner 2's and refiner 3's accept — the refiners' preconditions are
asymmetric. -/
theorem C10_validate_input_asymmetry (input_data : AgentInput)
    (prev : List AgentOutput) (q : String)
    (hprev : input_data.previous_responses = some prev) (hne : prev ≠ [])
    (hq : input_data.question = some q) (hqne : q ≠ "")
    (himg : strTruthy input_data.image_path = false) :
    refiner1ValidateInput input_data = false ∧
    refiner2ValidateInput input_data = true ∧
    refiner3ValidateInput input_data = true := by
  unfold refiner1ValidateInput refiner2ValidateInput refiner3ValidateInput
  rw [hprev, hq, himg]
  simp [listTruthy, strTruthy, hne, hqne, List.length_pos]

/-- Witness for C10_validate_input_asymmetry: previous_responses holding one
output, question "Q", image_path None. -/
theorem C10_validate_input_asymmetry_witness :
    refiner1ValidateInput
      { question := some "Q", previous_responses := some [⟨"r", 9/10⟩] } = false ∧
    refiner2ValidateInput
      { question := some "Q", previous_responses := some [⟨"r", 9/10⟩] } = true ∧
    refiner3ValidateInput
      { question := some "Q", previous_responses := some [⟨"r", 9/10⟩] } = true :=
  C10_validate_input_asymmetry
    { question := some "Q", previous_responses := some [⟨"r", 9/10⟩] }
    [⟨"r", 9/10⟩] "Q" rfl (by simp) rfl (by decide) rfl
